import Mathlib

/-!
Verification of the alienprobe structured-logging core.

The Python sources are shallowly embedded: Python classes become structures,
Python dicts become association lists (insertion order preserved), raised
exceptions become `Except` errors, and calls into the Python standard library
(`datetime.strftime`, `datetime.now`, `pprint.pformat`,
`traceback.format_exception`) become explicit function/value parameters of the
embedded operations, since their outputs are opaque to the logging core.
-/

/-- Errors raised by the embedded Python code.  Python raises `ValueError`
(explicitly), `KeyError` (dict subscript misses), `AttributeError`
(calling `.items()` on a non-dict) and `TypeError` (hashing an unhashable
object); each carries its message or key. -/
inductive PyErr where
  | valueError (msg : String)
  | keyError (key : String)
  | attributeError (msg : String)
  | typeError (msg : String)
deriving DecidableEq, Repr

/-- Embedding of `datetime.datetime` values.  The logging core never inspects
a datetime beyond handing it to `strftime`, so an abstract stamp suffices. -/
structure PyDatetime where
  stamp : Nat
deriving DecidableEq, Repr

/-- Embedding of a captured Python exception: `traceback.format_exception`
returns a list of frame strings; the embedding carries that list directly. -/
structure PyException where
  frames : List String
deriving DecidableEq, Repr

/-- Embedding of the dynamically-typed Python values that flow through the
logging core: `None`, strings, ints, floats (represented by their `str()`
decimal display text, the only operation the core applies to them),
datetimes, dicts (association lists, insertion order preserved) and other
objects (carrying their type display and `str()` display). -/
inductive PyVal where
  | none
  | str (s : String)
  | int (n : Int)
  | float (display : String)
  | datetime (d : PyDatetime)
  | dict (entries : List (String × PyVal))
  | obj (typeName : String) (display : String)

/-- Python truthiness (`bool(v)`) for the embedded values.  A float is falsy
exactly when it is a zero, whose `str()` display is "0.0" or "-0.0". -/
def pyTruthy : PyVal → Bool
  | .none => false
  | .str s => !(s == "")
  | .int n => !(n == 0)
  | .float d => !(d == "0.0" || d == "-0.0")
  | .datetime _ => true
  | .dict l => !l.isEmpty
  | .obj _ _ => true

/-- Python `isinstance(v, dict)`. -/
def PyVal.isDict : PyVal → Bool
  | .dict _ => true
  | _ => false

/-- Python `isinstance(v, datetime.datetime)`. -/
def PyVal.isDatetime : PyVal → Bool
  | .datetime _ => true
  | _ => false

/-- Python `str(v)` display for the embedded values.  For a dict the core
never reaches this branch (dicts are matched earlier by every caller), so an
abstract display is used; apostrophes of the CPython displays are elided. -/
def pyStr : PyVal → String
  | .none => "None"
  | .str s => s
  | .int n => toString n
  | .float d => d
  | .datetime d => "datetime(" ++ toString d.stamp ++ ")"
  | .dict _ => "<dict>"
  | .obj _ display => display

/-- Python `str(type(v))` for the embedded values (apostrophes of the CPython
display are elided; `obj` carries its own type display). -/
def pyTypeName : PyVal → String
  | .none => "<class NoneType>"
  | .str _ => "<class str>"
  | .int _ => "<class int>"
  | .float _ => "<class float>"
  | .datetime _ => "<class datetime.datetime>"
  | .dict _ => "<class dict>"
  | .obj typeName _ => typeName

/-- Whether `needle` is a prefix of `s`, on character lists. -/
def listPfx : List Char → List Char → Bool
  | [], _ => true
  | _ :: _, [] => false
  | a :: as, b :: bs => a == b && listPfx as bs

/-- Whether `needle` occurs in `hay`, on character lists. -/
def listContains (needle : List Char) : List Char → Bool
  | [] => listPfx needle []
  | c :: t => listPfx needle (c :: t) || listContains needle t

/-- Substring containment, Python's `needle in hay` on strings. -/
def strContains (hay needle : String) : Bool :=
  listContains needle.data hay.data

/-- Python `str.strip()`: remove leading and trailing whitespace. -/
def pyStrip (s : String) : String :=
  ⟨((s.data.dropWhile Char.isWhitespace).reverse.dropWhile Char.isWhitespace).reverse⟩

/-- Python `str.lower()` (ASCII case mapping suffices for the level names). -/
def pyLower (s : String) : String :=
  ⟨s.data.map Char.toLower⟩

/-- Strip `pat` from the front of `s`, returning the remainder on a match. -/
def stripPfx : List Char → List Char → Option (List Char)
  | [], rest => some rest
  | _ :: _, [] => Option.none
  | a :: ps, b :: t => if a == b then stripPfx ps t else Option.none

/-- Left-to-right non-overlapping replacement on character lists, driven by
fuel so the recursion is structural; every match consumes at least one
character, so fuel equal to the list length is exact. -/
def replaceFuel (pat rep : List Char) : Nat → List Char → List Char
  | 0, s => s
  | _ + 1, [] => []
  | fuel + 1, c :: t =>
    match stripPfx pat (c :: t) with
    | some rest => rep ++ replaceFuel pat rep fuel rest
    | Option.none => c :: replaceFuel pat rep fuel t

/-- Python `str.replace(pat, rep)` for a non-empty pattern (the logging core
only ever replaces the fixed non-empty `[[...]]` tokens; an empty pattern is
returned unchanged). -/
def pyReplace (s pat rep : String) : String :=
  if pat.data.isEmpty then s
  else ⟨replaceFuel pat.data rep.data s.data.length s.data⟩

instance {e a : Type} [DecidableEq e] [DecidableEq a] : DecidableEq (Except e a) := fun x y =>
  match x, y with
  | .ok u, .ok v =>
    if h : u = v then .isTrue (by rw [h]) else .isFalse (by intro hh; cases hh; exact h rfl)
  | .error u, .error v =>
    if h : u = v then .isTrue (by rw [h]) else .isFalse (by intro hh; cases hh; exact h rfl)
  | .ok _, .error _ => .isFalse (by intro hh; cases hh)
  | .error _, .ok _ => .isFalse (by intro hh; cases hh)

/-- Embedding of `alienprobe.log_levels.LogLevel`: a name and an integer id.
Python equality on these compares `level_id` only. -/
structure LogLevel where
  name : String
  level_id : Int
deriving DecidableEq, Repr

/-- Hashing a LogLevel.  `log_levels.py` defines `LogLevel.__eq__` (line 25)
without defining `__hash__`, so Python 3 sets the class's `__hash__` to
`None` and every attempt to hash a LogLevel instance raises
`TypeError: unhashable type` (apostrophes of the CPython message elided). -/
def LogLevel.py_hash (_ : LogLevel) : Except PyErr Int :=
  .error (.typeError "unhashable type: LogLevel")

namespace LogLevels

/-- LogLevels.TRACE from `log_levels.py`. -/
def TRACE : LogLevel := ⟨"trace", 0⟩

/-- LogLevels.DEBUG from `log_levels.py`. -/
def DEBUG : LogLevel := ⟨"debug", 1⟩

/-- LogLevels.INFO from `log_levels.py`. -/
def INFO : LogLevel := ⟨"info", 2⟩

/-- LogLevels.NOTICE from `log_levels.py`. -/
def NOTICE : LogLevel := ⟨"notice", 3⟩

/-- LogLevels.WARNING from `log_levels.py`. -/
def WARNING : LogLevel := ⟨"warning", 4⟩

/-- LogLevels.WARN from `log_levels.py` (same name and id as WARNING). -/
def WARN : LogLevel := ⟨"warning", 4⟩

/-- LogLevels.ERROR from `log_levels.py`. -/
def ERROR : LogLevel := ⟨"error", 5⟩

/-- LogLevels.CRITICAL from `log_levels.py`. -/
def CRITICAL : LogLevel := ⟨"critical", 6⟩

/-- LogLevels.FATAL from `log_levels.py`. -/
def FATAL : LogLevel := ⟨"fatal", 7⟩

/-- The `log_levels_by_id` table of `log_levels.py`, in source order.  Note
the table names id 4 "warn", unlike the WARNING constant. -/
def log_levels_by_id : List (Int × LogLevel) :=
  [ (0, ⟨"trace", 0⟩), (1, ⟨"debug", 1⟩), (2, ⟨"info", 2⟩), (3, ⟨"notice", 3⟩),
    (4, ⟨"warn", 4⟩), (5, ⟨"error", 5⟩), (6, ⟨"critical", 6⟩), (7, ⟨"fatal", 7⟩) ]

/-- The `log_levels_by_name` table of `log_levels.py`, in source (insertion)
order. -/
def log_levels_by_name : List (String × LogLevel) :=
  [ ("trace", ⟨"trace", 0⟩), ("debug", ⟨"debug", 1⟩), ("info", ⟨"info", 2⟩),
    ("notice", ⟨"notice", 3⟩), ("warning", ⟨"warning", 4⟩), ("warn", ⟨"warn", 4⟩),
    ("error", ⟨"error", 5⟩), ("critical", ⟨"critical", 6⟩), ("fatal", ⟨"fatal", 7⟩) ]

/-- Python dict subscript `log_levels_by_name[k]`: the value when the key is
present, otherwise a raised `KeyError`. -/
def name_table_subscript (k : String) : Except PyErr LogLevel :=
  match (log_levels_by_name.find? (fun p => p.1 == k)).map (·.2) with
  | some lv => .ok lv
  | _ => .error (.keyError k)

/-- Embedding of `LogLevels.get_level_by_name` from `log_levels.py`:
falsy (empty) input returns None; otherwise the input is stripped and
lowercased, the name-table keys are scanned in insertion order, and on the
first key that CONTAINS the input as a substring the function returns the
dict subscript `log_levels_by_name[str_name]` — the subscript uses the
INPUT, not the matched key, so it raises `KeyError` when the input is a
proper substring of a key; with no matching key it returns None. -/
def get_level_by_name (str_name : String) : Except PyErr (Option LogLevel) :=
  if str_name == "" then .ok .none
  else
    let s := pyLower (pyStrip str_name)
    match log_levels_by_name.find? (fun p => strContains p.1 s) with
    | some _ =>
      match name_table_subscript s with
      | .ok lv => .ok (some lv)
      | .error e => .error e
    | _ => .ok .none

/-- Embedding of `LogLevels.get_log_level_by_id` from `log_levels.py`:
`if not level_id: return None` short-circuits on the falsy id 0; otherwise
the id table is scanned for an exact numeric match. -/
def get_log_level_by_id (level_id : Int) : Option LogLevel :=
  if level_id == 0 then .none
  else (log_levels_by_id.find? (fun p => p.1 == level_id)).map (·.2)

end LogLevels

/-- Embedding of `alienprobe.message.Message`: one log event's data.
`class_name` is `Union[str, object]` in the source, so it is a `PyVal`;
`params` may be a dict or `None`, so it is a `PyVal` as well. -/
structure Message where
  level : LogLevel
  class_name : PyVal
  message_static : String
  params : PyVal
  ex : Option PyException
  instance_id : String
  machine_name : String

/-- The stack-trace text built by `BaseDispatcher.format_message`: each frame
string of `traceback.format_exception` followed by a newline. -/
def exception_text (ex : PyException) : String :=
  ex.frames.foldl (fun acc s => acc ++ s ++ "\n") ""

/-- The per-value rendering of one params entry in
`BaseDispatcher.format_message` (lines 106-115): a datetime is formatted with
the MESSAGE TEMPLATE string as the strftime format and quoted; ints and
floats render as their decimal text unquoted; a dict renders as its
`pprint.pformat` block quoted; everything else renders as its `str()`
display quoted. -/
def param_val_str (strftime : PyDatetime → String → String) (pformat : PyVal → String)
    (message_format : String) : PyVal → String
  | .datetime d => "\"" ++ strftime d message_format ++ "\""
  | .int n => toString n
  | .float disp => disp
  | .dict entries => "\"" ++ pformat (.dict entries) ++ "\""
  | v => "\"" ++ pyStr v ++ "\""

/-- The params loop of `BaseDispatcher.format_message`: for each entry emit
`key=`, the rendered value, and a trailing space, in insertion order. -/
def params_msg (strftime : PyDatetime → String → String) (pformat : PyVal → String)
    (message_format : String) (entries : List (String × PyVal)) : String :=
  entries.foldl
    (fun acc kv => acc ++ kv.1 ++ "=" ++ param_val_str strftime pformat message_format kv.2 ++ " ")
    ""

/-- Lines 64-73 of `base_dispatcher.py`: when an exception is present the
exception template is appended to the message template and
`[[EXCEPTION_TEXT]]` is replaced with the stack-trace text; otherwise the
message template passes through unchanged. -/
def with_exception_text (message_format exception_format : String) :
    Option PyException → String
  | some ex => pyReplace (message_format ++ exception_format) "[[EXCEPTION_TEXT]]"
      (exception_text ex)
  | Option.none => message_format

/-- Lines 76-78 of `base_dispatcher.py`: a string source is used verbatim,
any other source renders as its type display. -/
def class_name_str : PyVal → String
  | .str s => s
  | v => pyTypeName v

/-- Lines 92-97 of `base_dispatcher.py`: the date, level-name, static-text,
instance-id and machine-name token replacements, in source order.  The
render-time clock (`now_local`/`now_utc`, line 85-87) and `strftime` are the
embedded `datetime` collaborators. -/
def replace_fixed_tokens (strftime : PyDatetime → String → String)
    (now_local now_utc : PyDatetime) (message_object : Message)
    (datetime_format : String) (log_utc : Bool) (msg : String) : String :=
  let log_date := if log_utc then now_utc else now_local
  let curtime_str := strftime log_date datetime_format
  let msg := pyReplace msg "[[DATE_STRING]]" curtime_str
  let msg := pyReplace msg "[[LOG_LEVEL]]" message_object.level.name
  let msg := pyReplace msg "[[LOG_MESSAGE_STATIC]]" message_object.message_static
  let msg := pyReplace msg "[[INSTANCE_ID]]" message_object.instance_id
  pyReplace msg "[[MACHINE_NAME]]" message_object.machine_name

/-- Lines 99-100 of `base_dispatcher.py`: `if not message_object.params:
message_object.params = {}` — the falsy params field is overwritten with an
empty dict ON the message object, an observable mutation. -/
def normalized_params_object (message_object : Message) : Message :=
  if pyTruthy message_object.params then message_object
  else { message_object with params := PyVal.dict [] }

/-- Embedding of `BaseDispatcher.format_message`.  The Python standard
library collaborators become explicit parameters: `strftime` (datetime
formatting), `pformat` (`pprint.pformat`), `now_local`/`now_utc` (the wall
clock at render time).  Faithful to the source order: the exception template
is appended and `[[EXCEPTION_TEXT]]` replaced first; then `[[CLASS_NAME]]`;
then the empty-`datetime_format` check raises `ValueError`; then the
remaining fixed tokens; then the falsy-`params` field is overwritten with an
empty dict on the message object itself (returned as the second component);
finally `[[LOG_PARAMS]]` is replaced with the stripped params text.
Iterating `.items()` on a truthy non-dict raises `AttributeError`. -/
def format_message (strftime : PyDatetime → String → String) (pformat : PyVal → String)
    (now_local now_utc : PyDatetime) (message_object : Message)
    (datetime_format : String) (log_utc : Bool)
    (message_format : String) (exception_format : String) :
    Except PyErr (String × Message) :=
  let msg := with_exception_text message_format exception_format message_object.ex
  let msg := pyReplace msg "[[CLASS_NAME]]" (class_name_str message_object.class_name)
  if datetime_format == "" then
    .error (.valueError "No Valid datetime_format configured in the configuration file.  Was None.")
  else
    let msg := replace_fixed_tokens strftime now_local now_utc message_object
      datetime_format log_utc msg
    let message_object := normalized_params_object message_object
    match message_object.params with
    | .dict entries =>
      let msg := pyReplace msg "[[LOG_PARAMS]]"
        (pyStrip (params_msg strftime pformat message_format entries))
      .ok (msg, message_object)
    | _ => .error (.attributeError "params object has no attribute items")

/-- Embedding of `NullDispatcher.write_message`: the body is `pass`, so the
dispatcher prints nothing (empty output-line list), never calls
`format_message`, and returns Python `None` — modelled as `Option.none`,
not the boolean `True` its signature declares. -/
def NullDispatcher.write_message (message_object : Message) : Option Bool × List String :=
  (Option.none, [])

/-- The configuration fields of `ConsoleDispatcher`. -/
structure ConsoleConfig where
  colorize_messages : Bool
  datetime_format : String
  log_utc_timezone : Bool
  message_format : String
  exception_format : String
deriving DecidableEq, Repr

/-- The `ascii_colour_codes` table of `console_dispatcher.py`. -/
def ascii_colour_codes : List (String × String) :=
  [ ("black", "\x1b[0;30m"), ("red", "\x1b[0;31m"), ("green", "\x1b[0;32m"),
    ("yellow", "\x1b[0;33m"), ("blue", "\x1b[0;34m"), ("magenta", "\x1b[0;35m"),
    ("cyan", "\x1b[0;36m"), ("light-gray", "\x1b[0;37m"),
    ("light-red", "\x1b[1;31m"), ("light-green", "\x1b[1;32m"),
    ("light-yellow", "\x1b[1;33m"), ("light-blue", "\x1b[1;34m"),
    ("light-magenta", "\x1b[1;35m"), ("light-cyan", "\x1b[1;36m"),
    ("reset", "\x1b[0m") ]

/-- Subscript into `ascii_colour_codes` (total: the source only uses keys
that are present). -/
def colour_code (name : String) : String :=
  match (ascii_colour_codes.find? (fun p => p.1 == name)).map (·.2) with
  | some c => c
  | _ => ""

/-- The key-value pairs written in the `color_mappings` dict literal of
`console_dispatcher.py` (lines 40-49), in source order — the literal's
TEXT.  Evaluating the literal itself is `color_mappings_import` below, and
it raises: LogLevel keys are unhashable. -/
def color_mappings_entries : List (LogLevel × String) :=
  [ (LogLevels.TRACE, colour_code "light-gray"),
    (LogLevels.DEBUG, colour_code "light-green"),
    (LogLevels.INFO, colour_code "light-blue"),
    (LogLevels.WARNING, colour_code "yellow"),
    (LogLevels.NOTICE, colour_code "light-cyan"),
    (LogLevels.ERROR, colour_code "light-red"),
    (LogLevels.CRITICAL, colour_code "light-magenta"),
    (LogLevels.FATAL, colour_code "red") ]

/-- Building a Python dict with LogLevel keys: each key is hashed in turn,
and the first unhashable key raises `TypeError`. -/
def mk_loglevel_dict : List (LogLevel × String) → Except PyErr (List (LogLevel × String))
  | [] => .ok []
  | (k, v) :: rest =>
    match k.py_hash with
    | .error e => .error e
    | .ok _ => (mk_loglevel_dict rest).map (fun d => (k, v) :: d)

/-- Evaluating the `color_mappings` class-body dict literal, which Python
runs when `console_dispatcher.py` is imported: every LogLevel key must be
hashed, and LogLevel is unhashable, so the import raises `TypeError` and
the ConsoleDispatcher class never comes into existence. -/
def color_mappings_import : Except PyErr (List (LogLevel × String)) :=
  mk_loglevel_dict color_mappings_entries

/-- Python `level in d.keys()` on a LogLevel-keyed dict (line 121): the
membership test hashes `level` first, so an unhashable LogLevel raises
`TypeError` before any `__eq__` comparison (which would compare `level_id`
only) can run. -/
def dict_keys_contains (d : List (LogLevel × String)) (lvl : LogLevel) : Except PyErr Bool :=
  match lvl.py_hash with
  | .error e => .error e
  | .ok _ => .ok (d.any (fun p => p.1.level_id == lvl.level_id))

/-- Python `d[level]` on a LogLevel-keyed dict (line 122): the subscript
hashes `level` first, so an unhashable LogLevel raises `TypeError`; on a
hashable key it would return the value matched by `__eq__` (`level_id`) or
raise `KeyError`. -/
def dict_subscript (d : List (LogLevel × String)) (lvl : LogLevel) : Except PyErr String :=
  match lvl.py_hash with
  | .error e => .error e
  | .ok _ =>
    match (d.find? (fun p => p.1.level_id == lvl.level_id)).map (·.2) with
    | some c => .ok c
    | _ => .error (.keyError lvl.name)

/-- Embedding of `ConsoleDispatcher.config_dispatcher`: each field is read
from the config mapping with the source's default.  `bool(...)` on the
retrieved value is `pyTruthy`; the string-valued fields take the retrieved
value's string display. -/
def ConsoleDispatcher.config_dispatcher (config : List (String × PyVal)) : ConsoleConfig :=
  let get := fun (k : String) (dflt : PyVal) =>
    match (config.find? (fun p => p.1 == k)).map (·.2) with
    | some v => v
    | _ => dflt
  { colorize_messages := pyTruthy (get "colorize_messages" (.str "true")),
    datetime_format := pyStr (get "datetime_format" (.str "YY%Y-%m-%d_%H:%M:%S.%f")),
    log_utc_timezone := pyTruthy (get "log_utc_timezone" (.str "true")),
    message_format := pyStr (get "message_format"
      (.str "machine_name=\"[[MACHINE_NAME]]\"date=\"[[DATE_STRING]]\" level=\"[[LOG_LEVEL]]\" message=\"[[LOG_MESSAGE_STATIC]]\" [[LOG_PARAMS]]")),
    exception_format := pyStr (get "exception_format" (.str "exception=\"\n[[EXCEPTION_TEXT]]\"")) }

/-- Embedding of the TEXT of `ConsoleDispatcher.write_message` (lines
108-127), as it would execute were the class reachable (the module import
already raises at the `color_mappings` literal, see
`color_mappings_import`): format via the base class (a failure propagates);
then `level in self.color_mappings.keys()` — which hashes the unhashable
level and raises `TypeError`, so the two emit branches below it (colored
line via `color_mappings[level]` plus reset, or plain line, each returning
`True`) are dead code.  `self.colorize_messages` is never consulted.  The
result carries the printed line, the returned boolean, and the (possibly
mutated) message object. -/
def ConsoleDispatcher.write_message (strftime : PyDatetime → String → String)
    (pformat : PyVal → String) (now_local now_utc : PyDatetime)
    (self : ConsoleConfig) (message_object : Message) :
    Except PyErr (String × Bool × Message) :=
  match format_message strftime pformat now_local now_utc message_object
      self.datetime_format self.log_utc_timezone self.message_format self.exception_format with
  | .error e => .error e
  | .ok (message, m) =>
    match dict_keys_contains color_mappings_entries message_object.level with
    | .error e => .error e
    | .ok true =>
      match dict_subscript color_mappings_entries message_object.level with
      | .error e => .error e
      | .ok c => .ok (c ++ message ++ colour_code "reset", true, m)
    | .ok false => .ok (message, true, m)

/-- The fan-out loop of `AlienLogger.log_internal` (lines 168-170),
instrumented with the number of `write_message` calls made: each dispatcher
is called in order; a returned value is discarded; a raised exception
propagates immediately, ending the loop. -/
def fan_out_count (dispatchers : List (Message → Except PyErr Bool)) (msg_obj : Message) :
    Except PyErr Unit × Nat :=
  match dispatchers with
  | [] => (.ok (), 0)
  | d :: rest =>
    match d msg_obj with
    | .error e => (.error e, 1)
    | .ok _ =>
      let r := fan_out_count rest msg_obj
      (r.1, r.2 + 1)

/-- The `ValueError` message text of `AlienLogger.log_internal` for
non-dict params (apostrophes of the original f-string elided). -/
def invalid_params_message (log_message_static : String) (log_source : PyVal) : String :=
  "Message log params for message " ++ log_message_static ++ " in class " ++
    pyStr log_source ++ " is not a dictionary!  Pass in a dictionary or None."

/-- Embedding of `AlienLogger.log_internal`: raise `ValueError` when
`log_params` is truthy and not a dict (`if log_params and not
isinstance(log_params, dict)`); otherwise build the message object from the
arguments and the facade identity, and fan it out to the dispatchers in
order. -/
def log_internal (dispatchers : List (Message → Except PyErr Bool))
    (instance_id machine_name : String) (log_level : LogLevel) (log_source : PyVal)
    (log_message_static : String) (log_params : PyVal) (exception : Option PyException) :
    Except PyErr Unit :=
  if pyTruthy log_params && !log_params.isDict then
    .error (.valueError (invalid_params_message log_message_static log_source))
  else
    (fan_out_count dispatchers
      ⟨log_level, log_source, log_message_static, log_params, exception,
        instance_id, machine_name⟩).1

/-- A strftime stand-in that ignores both arguments (used by concrete runs
whose template has no date token). -/
def const_strftime : PyDatetime → String → String := fun _ _ => "@"

/-- A strftime stand-in that records the format string it was given, making
visible which format string the formatter passes in. -/
def fmt_strftime : PyDatetime → String → String :=
  fun d fmt => "fmt:" ++ fmt ++ ":" ++ toString d.stamp

/-- A strftime stand-in returning the format string verbatim. -/
def template_strftime : PyDatetime → String → String := fun _ fmt => fmt

/-- A pprint.pformat stand-in. -/
def const_pformat : PyVal → String := fun _ => "PP"

/-- A dispatcher whose `write_message` always raises. -/
def always_fail_dispatcher : Message → Except PyErr Bool :=
  fun _ => .error (.valueError "dispatcher boom")

/-- A dispatcher whose `write_message` always succeeds returning True. -/
def always_ok_dispatcher : Message → Except PyErr Bool := fun _ => .ok true

/-- A dispatcher whose `write_message` returns False without raising. -/
def returns_false_dispatcher : Message → Except PyErr Bool := fun _ => .ok false

/-- A concrete envelope used by the fan-out runs. -/
def sample_message : Message :=
  ⟨LogLevels.INFO, .str "src", "alert", .dict [("k", .str "v")], Option.none, "iid", "host"⟩

/-- C1 (claimed failure isolation during fan-out): concrete runs of the
`log_internal` fan-out loop.  A dispatcher that merely returns False does
not stop the loop (its return value is discarded), but a dispatcher that
RAISES stops the loop — the dispatcher after it is never invoked (only 1 of
2, resp. 2 of 3, calls are made) — and the error propagates out of
`log_internal` to the caller instead of being swallowed. -/
theorem fan_out_failure_not_isolated :
    fan_out_count [always_fail_dispatcher, always_ok_dispatcher] sample_message
      = (.error (.valueError "dispatcher boom"), 1)
    ∧ fan_out_count [always_ok_dispatcher, always_fail_dispatcher, always_ok_dispatcher]
        sample_message = (.error (.valueError "dispatcher boom"), 2)
    ∧ log_internal [always_fail_dispatcher, always_ok_dispatcher] "iid" "host"
        LogLevels.INFO (.str "src") "alert" (.dict [("k", .str "v")]) Option.none
      = .error (.valueError "dispatcher boom")
    ∧ fan_out_count [returns_false_dispatcher, always_ok_dispatcher] sample_message
      = (.ok (), 2) :=
  ⟨rfl, rfl, rfl, rfl⟩

/-- C2 (claimed id lookup correctness): `get_log_level_by_id` resolves ids
1 through 7 exactly and misses ids outside the table, but the falsy
short-circuit makes id 0 return the not-found result instead of the trace
level. -/
theorem get_log_level_by_id_zero_is_none :
    LogLevels.get_log_level_by_id 0 = Option.none
    ∧ LogLevels.get_log_level_by_id 1 = some ⟨"debug", 1⟩
    ∧ LogLevels.get_log_level_by_id 2 = some ⟨"info", 2⟩
    ∧ LogLevels.get_log_level_by_id 3 = some ⟨"notice", 3⟩
    ∧ LogLevels.get_log_level_by_id 4 = some ⟨"warn", 4⟩
    ∧ LogLevels.get_log_level_by_id 5 = some ⟨"error", 5⟩
    ∧ LogLevels.get_log_level_by_id 6 = some ⟨"critical", 6⟩
    ∧ LogLevels.get_log_level_by_id 7 = some ⟨"fatal", 7⟩
    ∧ LogLevels.get_log_level_by_id 8 = Option.none
    ∧ LogLevels.get_log_level_by_id (-1) = Option.none := by
  decide

/-- C3 (claimed totality of name lookup): exact names (case-insensitive,
whitespace-trimmed) resolve and unmatched names return not-found, but the
input "err" — a proper substring of the key "error" — raises `KeyError`
because the dict subscript uses the input instead of the matched key, so
the function is not total over all strings. -/
theorem get_level_by_name_err_raises :
    LogLevels.get_level_by_name "err" = .error (.keyError "err")
    ∧ LogLevels.get_level_by_name " ERROR " = .ok (some ⟨"error", 5⟩)
    ∧ LogLevels.get_level_by_name "warn" = .ok (some ⟨"warn", 4⟩)
    ∧ LogLevels.get_level_by_name "trace" = .ok (some ⟨"trace", 0⟩)
    ∧ LogLevels.get_level_by_name "zzz" = .ok Option.none
    ∧ LogLevels.get_level_by_name "" = .ok Option.none := by
  decide

/-- C5 (claimed True-returning null dispatcher): `NullDispatcher.write_message`
prints nothing and returns Python None (its body is `pass`), which is not
the success boolean True. -/
theorem null_write_message_returns_none (m : Message) :
    NullDispatcher.write_message m = (Option.none, [])
    ∧ (Option.none : Option Bool) ≠ some true :=
  ⟨rfl, by decide⟩

/-- C6 counterexample: a log call whose params is the empty string or the
integer 0 — falsy values that are not mappings — passes the validation and
returns normally instead of failing with the InvalidArgument condition. -/
theorem log_internal_falsy_non_mapping_ok :
    log_internal [] "iid" "host" LogLevels.INFO (.str "src") "alert" (.str "") Option.none
      = .ok ()
    ∧ log_internal [] "iid" "host" LogLevels.INFO (.str "src") "alert" (.int 0) Option.none
      = .ok ()
    ∧ (PyVal.str "").isDict = false
    ∧ (PyVal.int 0).isDict = false :=
  ⟨rfl, rfl, rfl, rfl⟩

/-- C6 amended: a log call fails the params validation exactly when params
is truthy and not a mapping, and then raises the ValueError naming the
static alert and the source; absent (None), falsy (empty string, zero,
empty dict) and proper-mapping params all pass validation and the call
proceeds normally. -/
theorem log_internal_params_validation (instance_id machine_name : String)
    (log_level : LogLevel) (log_source : PyVal) (log_message_static : String)
    (log_params : PyVal) (exception : Option PyException) :
    log_internal [] instance_id machine_name log_level log_source log_message_static
        log_params exception
      = (if pyTruthy log_params && !log_params.isDict
         then .error (.valueError (invalid_params_message log_message_static log_source))
         else .ok ()) := by
  cases hc : pyTruthy log_params && !log_params.isDict <;>
    simp [log_internal, hc, fan_out_count]

/-- A concrete envelope whose params carry a datetime value. -/
def message_datetime_param : Message :=
  ⟨LogLevels.INFO, .str "C", "S", .dict [("when", .datetime ⟨5⟩)], Option.none, "I", "M"⟩

/-- C8: a datetime-valued params entry is rendered by calling strftime with
the MESSAGE TEMPLATE string as the format, and the result is enclosed in
double quotes; end-to-end, the same envelope rendered under two different
`datetime_format` settings produces the same output, in which the recording
strftime shows it received the template text "[[LOG_PARAMS]]" — not "DF1"
or "DF2" — as its format string. -/
theorem datetime_param_uses_message_template :
    (∀ (sf : PyDatetime → String → String) (pf : PyVal → String)
       (message_format : String) (d : PyDatetime),
       param_val_str sf pf message_format (.datetime d) = "\"" ++ sf d message_format ++ "\"")
    ∧ (format_message fmt_strftime const_pformat ⟨0⟩ ⟨0⟩ message_datetime_param
        "DF1" true "[[LOG_PARAMS]]" "E").map (·.1)
      = .ok "when=\"fmt:[[LOG_PARAMS]]:5\""
    ∧ (format_message fmt_strftime const_pformat ⟨0⟩ ⟨0⟩ message_datetime_param
        "DF2" true "[[LOG_PARAMS]]" "E").map (·.1)
      = .ok "when=\"fmt:[[LOG_PARAMS]]:5\"" :=
  ⟨fun _ _ _ _ => rfl, by decide, by decide⟩

/-- The round-trip envelope of the spec: params {"path": "/tmp/f", "size": 42}. -/
def message_roundtrip : Message :=
  ⟨LogLevels.INFO, .str "src", "alert", .dict [("path", .str "/tmp/f"), ("size", .int 42)],
    Option.none, "iid", "host"⟩

/-- C9: string param values render quoted, int and float values render as
their decimal text unquoted; the mapping {"path": "/tmp/f", "size": 42}
renders pair by pair in insertion order, single-space separated, and after
the trailing strip `[[LOG_PARAMS]]` is substituted with exactly
`path="/tmp/f" size=42`, shown both on the params text and end-to-end
through `format_message`. -/
theorem log_params_roundtrip :
    (∀ (sf : PyDatetime → String → String) (pf : PyVal → String) (mf s : String),
       param_val_str sf pf mf (.str s) = "\"" ++ s ++ "\"")
    ∧ (∀ (sf : PyDatetime → String → String) (pf : PyVal → String) (mf : String) (n : Int),
       param_val_str sf pf mf (.int n) = toString n)
    ∧ (∀ (sf : PyDatetime → String → String) (pf : PyVal → String) (mf d : String),
       param_val_str sf pf mf (.float d) = d)
    ∧ (∀ (sf : PyDatetime → String → String) (pf : PyVal → String) (mf : String),
       params_msg sf pf mf [("path", .str "/tmp/f"), ("size", .int 42)]
         = "path=\"/tmp/f\" size=42 ")
    ∧ (∀ (sf : PyDatetime → String → String) (pf : PyVal → String) (mf : String),
       pyStrip (params_msg sf pf mf [("path", .str "/tmp/f"), ("size", .int 42)])
         = "path=\"/tmp/f\" size=42")
    ∧ (format_message template_strftime const_pformat ⟨0⟩ ⟨0⟩ message_roundtrip
        "D" true "X [[LOG_PARAMS]]" "E").map (·.1)
      = .ok "X path=\"/tmp/f\" size=42" :=
  ⟨fun _ _ _ _ => rfl, fun _ _ _ _ => rfl, fun _ _ _ _ => rfl,
   fun _ _ _ => rfl, fun _ _ _ => rfl, by decide⟩

/-- C10 (claimed colorize-flag non-interference of the console output): the
claim describes emission behavior the program can never exhibit, because
`LogLevel` defines `__eq__` without `__hash__` and is therefore unhashable:
evaluating the `color_mappings` dict literal raises `TypeError` when
`console_dispatcher.py` is imported, and `write_message`'s membership test
hashes the envelope's level and would raise the same `TypeError` per call —
so after any successful formatting the write raises instead of emitting a
line (colored or plain) and `True` is never returned.  What does hold of the
code text: `colorize_messages` is read by `config_dispatcher` and never
consulted by `write_message`, whose result — here, the raised error — is
identical under any value of the flag. -/
theorem console_write_always_raises_type_error :
    color_mappings_import = .error (.typeError "unhashable type: LogLevel")
    ∧ (∀ lvl : LogLevel,
       dict_keys_contains color_mappings_entries lvl
         = .error (.typeError "unhashable type: LogLevel"))
    ∧ (∀ (sf : PyDatetime → String → String) (pf : PyVal → String) (n1 n2 : PyDatetime)
       (cfg : ConsoleConfig) (m : Message),
       ConsoleDispatcher.write_message sf pf n1 n2 cfg m
         = (format_message sf pf n1 n2 m cfg.datetime_format cfg.log_utc_timezone
             cfg.message_format cfg.exception_format).bind
           (fun _ => .error (.typeError "unhashable type: LogLevel")))
    ∧ (∀ (sf : PyDatetime → String → String) (pf : PyVal → String) (n1 n2 : PyDatetime)
       (cfg : ConsoleConfig) (b : Bool) (m : Message),
       ConsoleDispatcher.write_message sf pf n1 n2 { cfg with colorize_messages := b } m
         = ConsoleDispatcher.write_message sf pf n1 n2 cfg m)
    ∧ (ConsoleDispatcher.config_dispatcher []).colorize_messages = true
    ∧ (ConsoleDispatcher.config_dispatcher [("colorize_messages", .str "")]).colorize_messages
        = false := by
  refine ⟨rfl, fun _ => rfl, fun sf pf n1 n2 cfg m => ?_, fun _ _ _ _ _ _ _ => rfl, rfl, rfl⟩
  cases h : format_message sf pf n1 n2 m cfg.datetime_format cfg.log_utc_timezone
      cfg.message_format cfg.exception_format with
  | error e => simp only [ConsoleDispatcher.write_message, h]; rfl
  | ok p => simp only [ConsoleDispatcher.write_message, h]; rfl

/-- A concrete envelope whose params is Python None. -/
def message_none_params : Message :=
  ⟨LogLevels.INFO, .str "C", "S", PyVal.none, Option.none, "I", "M"⟩

/-- C7 counterexample: rendering an envelope whose params is None returns a
message object whose params field has become the empty dict — the envelope
was modified, contradicting the claim that rendering leaves every field
unchanged. -/
theorem rendering_replaces_none_params :
    (format_message const_strftime const_pformat ⟨0⟩ ⟨0⟩ message_none_params
        "D" true "T" "E").map (·.2.params)
      = .ok (PyVal.dict [])
    ∧ PyVal.dict [] ≠ PyVal.none :=
  ⟨rfl, fun h => PyVal.noConfusion h⟩

/-- C7 amended: whenever `format_message` succeeds, the message object it
hands back is the input envelope with every field preserved EXCEPT params:
params stays unchanged when truthy (a non-empty mapping) and is replaced by
the empty dict when falsy (None or an empty mapping); level, source, static
text, error, instance id and machine name are all unchanged. -/
theorem rendering_mutates_only_params (sf : PyDatetime → String → String)
    (pf : PyVal → String) (n1 n2 : PyDatetime) (m : Message) (df : String) (lu : Bool)
    (mf ef : String) :
    (format_message sf pf n1 n2 m df lu mf ef).map (·.2)
      = (format_message sf pf n1 n2 m df lu mf ef).map
        (fun _ => if pyTruthy m.params then m else { m with params := PyVal.dict [] })
    ∧ (if pyTruthy m.params then m else { m with params := PyVal.dict [] }).level = m.level
    ∧ (if pyTruthy m.params then m else { m with params := PyVal.dict [] }).class_name
        = m.class_name
    ∧ (if pyTruthy m.params then m else { m with params := PyVal.dict [] }).message_static
        = m.message_static
    ∧ (if pyTruthy m.params then m else { m with params := PyVal.dict [] }).ex = m.ex
    ∧ (if pyTruthy m.params then m else { m with params := PyVal.dict [] }).instance_id
        = m.instance_id
    ∧ (if pyTruthy m.params then m else { m with params := PyVal.dict [] }).machine_name
        = m.machine_name
    ∧ (if pyTruthy m.params then m else { m with params := PyVal.dict [] }).params
        = (if pyTruthy m.params then m.params else PyVal.dict []) := by
  refine ⟨?_, ?_, ?_, ?_, ?_, ?_, ?_, ?_⟩
  · unfold format_message normalized_params_object
    split
    · rfl
    · dsimp only
      cases hp : (if pyTruthy m.params then m else { m with params := PyVal.dict [] }).params <;>
        simp only [hp] <;> rfl
  all_goals split <;> rfl

/-- Python truthiness of whether no top-level params value is a datetime;
datetime values are the only ones whose rendering reads the message
template. -/
def no_datetime_param : PyVal → Bool
  | .dict entries => entries.all (fun kv => !kv.2.isDatetime)
  | _ => true

/-- Every branch of `param_val_str` except the datetime branch ignores the
message-template argument. -/
theorem param_val_str_template_irrel (sf : PyDatetime → String → String)
    (pf : PyVal → String) (A B : String) (v : PyVal) (h : v.isDatetime = false) :
    param_val_str sf pf A v = param_val_str sf pf B v := by
  cases v <;> first | rfl | simp [PyVal.isDatetime] at h

/-- The params fold ignores the message-template argument when no entry is a
datetime, for any accumulator. -/
theorem params_fold_template_irrel (sf : PyDatetime → String → String)
    (pf : PyVal → String) (A B : String) :
    ∀ (entries : List (String × PyVal)),
      entries.all (fun kv => !kv.2.isDatetime) = true →
      ∀ acc : String,
      entries.foldl (fun acc kv => acc ++ kv.1 ++ "=" ++ param_val_str sf pf A kv.2 ++ " ") acc
        = entries.foldl (fun acc kv => acc ++ kv.1 ++ "=" ++ param_val_str sf pf B kv.2 ++ " ") acc := by
  intro entries
  induction entries with
  | nil => intro _ _; rfl
  | cons kv t ih =>
    intro h acc
    simp only [List.all_cons, Bool.and_eq_true] at h
    simp only [List.foldl_cons]
    rw [param_val_str_template_irrel sf pf A B kv.2 (by simpa using h.1)]
    exact ih h.2 _

/-- `params_msg` ignores the message-template argument when no entry is a
datetime. -/
theorem params_msg_template_irrel (sf : PyDatetime → String → String)
    (pf : PyVal → String) (A B : String) (entries : List (String × PyVal))
    (h : entries.all (fun kv => !kv.2.isDatetime) = true) :
    params_msg sf pf A entries = params_msg sf pf B entries :=
  params_fold_template_irrel sf pf A B entries h ""

/-- A concrete envelope whose captured stack trace contains the literal
text of the `[[LOG_LEVEL]]` token. -/
def message_exception_token : Message :=
  ⟨LogLevels.TRACE, .str "C", "S", .dict [], some ⟨["boom [[LOG_LEVEL]] line"]⟩, "I", "M"⟩

/-- C4 counterexample: with the trace-level envelope whose stack trace reads
"boom [[LOG_LEVEL]] line", the rendered output is
"L=trace E=boom trace line" followed by a newline — the token-like substring
inside the exception text WAS substituted with the level name (it occurs in
the trace text but is gone from the output), contradicting the claim that
exception content is never re-substituted. -/
theorem exception_token_is_substituted :
    (format_message const_strftime const_pformat ⟨0⟩ ⟨0⟩ message_exception_token
        "D" true "L=[[LOG_LEVEL]] " "E=[[EXCEPTION_TEXT]]").map (·.1)
      = .ok "L=trace E=boom trace line\n"
    ∧ strContains (exception_text ⟨["boom [[LOG_LEVEL]] line"]⟩) "[[LOG_LEVEL]]" = true
    ∧ strContains "L=trace E=boom trace line\n" "[[LOG_LEVEL]]" = false :=
  ⟨by decide, by decide, by decide⟩

set_option maxHeartbeats 1000000 in
/-- C4 amended: when an error is present, the exception template is
concatenated onto the message template and `[[EXCEPTION_TEXT]]` is replaced
with the stack-trace text BEFORE the remaining fixed-token passes run; as a
consequence the injected exception text is ordinary template text for those
later passes, so token-like substrings inside it (such as `[[LOG_LEVEL]]`)
ARE substituted: rendering the envelope equals rendering the same envelope
without the error under the pre-substituted concatenated template (when no
params value is a datetime, since the datetime quirk reads the template as
its date format). -/
theorem exception_template_substituted_first (sf : PyDatetime → String → String)
    (pf : PyVal → String) (n1 n2 : PyDatetime) (m : Message) (df : String) (lu : Bool)
    (mf ef : String) (e : PyException)
    (hex : m.ex = some e)
    (hnd : no_datetime_param m.params = true) :
    (format_message sf pf n1 n2 m df lu mf ef).map (·.1)
      = (format_message sf pf n1 n2 { m with ex := Option.none } df lu
          (pyReplace (mf ++ ef) "[[EXCEPTION_TEXT]]" (exception_text e)) ef).map (·.1) := by
  obtain ⟨lvl, cn, ms, ps, ex0, iid, mn⟩ := m
  dsimp only at hex hnd ⊢
  subst hex
  unfold format_message
  dsimp only [with_exception_text]
  split
  · rfl
  · unfold normalized_params_object
    dsimp only
    by_cases ht : pyTruthy ps
    · simp only [ht, if_true]
      cases hp : ps
      · rfl
      · rfl
      · rfl
      · rfl
      · rfl
      · rename_i entries
        dsimp only
        rw [params_msg_template_irrel sf pf
          (pyReplace (mf ++ ef) "[[EXCEPTION_TEXT]]" (exception_text e)) mf entries
          (by rw [hp] at hnd; exact hnd)]
        rfl
      · rfl
    · simp only [ht, Bool.false_eq_true, if_false]
      rw [params_msg_template_irrel sf pf
        (pyReplace (mf ++ ef) "[[EXCEPTION_TEXT]]" (exception_text e)) mf []
        rfl]
      rfl

/-- C4 witness: the amended theorem applied to the concrete trace-level
envelope, with both hypotheses discharged by computation. -/
theorem exception_template_substituted_first_witness :
    message_exception_token.ex = some ⟨["boom [[LOG_LEVEL]] line"]⟩
    ∧ no_datetime_param message_exception_token.params = true
    ∧ (format_message const_strftime const_pformat ⟨0⟩ ⟨0⟩ message_exception_token
        "D" true "L=[[LOG_LEVEL]] " "E=[[EXCEPTION_TEXT]]").map (·.1)
      = (format_message const_strftime const_pformat ⟨0⟩ ⟨0⟩
          { message_exception_token with ex := Option.none } "D" true
          (pyReplace ("L=[[LOG_LEVEL]] " ++ "E=[[EXCEPTION_TEXT]]") "[[EXCEPTION_TEXT]]"
            (exception_text ⟨["boom [[LOG_LEVEL]] line"]⟩)) "E=[[EXCEPTION_TEXT]]").map (·.1) :=
  ⟨rfl, rfl,
    exception_template_substituted_first const_strftime const_pformat ⟨0⟩ ⟨0⟩
      message_exception_token "D" true "L=[[LOG_LEVEL]] " "E=[[EXCEPTION_TEXT]]"
      ⟨["boom [[LOG_LEVEL]] line"]⟩ rfl rfl⟩
